import Mathlib

/-!
Verification of the STARS FFI wrapper (`stars_ffi.cpp`, two variants:
`backend/native` and `backend/crates/stars-core-native`).

The wrapper is embedded shallowly:

* JSON values are modelled by the inductive `Json` (numbers as rationals).
  A C string argument that must be parsed is modelled as
  `Option (Option Json)`: the outer `none` is a null `const char*`, the
  inner `none` is text rejected by `nlohmann::json::parse`.
* Out-parameters are modelled by returning `StarsResult × Option α`:
  the second component is `some v` exactly when the C function stores `v`
  through the out-pointer, and `none` when the out-pointer is left
  unwritten.  A null out-pointer is the extra boolean argument `outNull`.
* External collaborators that are not part of this repository
  (`stars::time::TimeUTC` parsing/formatting, `Instrument::Load`,
  `prescheduler::ComputePeriods`, the two scheduling engines and
  `Schedule::ComputeFitness`) are taken as explicit function arguments;
  a collaborator that may throw returns `Except String α` and the wrapper
  converts the `.error` case exactly where the C++ `catch` clause does.
* The thread-local `g_last_error` slot is modelled by explicit state
  passing of the `String` it holds (see the Error Channel section);
  the stage operations themselves are given in message-passing style with
  `mkError`, which builds the same `StarsResult` value that the C++
  `make_error` / `make_result` return.
-/

/- ============================================================
   JSON value model (nlohmann::json)
   ============================================================ -/

/-- JSON values; object fields keep insertion order, numbers are rationals. -/
inductive Json where
  | null : Json
  | bool (b : Bool) : Json
  | num (v : ℚ) : Json
  | str (s : String) : Json
  | arr (elems : List Json) : Json
  | obj (fields : List (String × Json)) : Json

/-- First binding of `key` in an object field list. -/
def Json.lookupField (key : String) : List (String × Json) → Option Json
  | [] => none
  | (k, v) :: rest => if k = key then some v else Json.lookupField key rest

/-- `j.contains(key)`: true only for objects that bind `key`. -/
def Json.containsKey (j : Json) (key : String) : Bool :=
  match j with
  | .obj fields => (Json.lookupField key fields).isSome
  | _ => false

/-- `j[key]` under a preceding `contains` guard (absent key yields `null`). -/
def Json.getKey (j : Json) (key : String) : Json :=
  match j with
  | .obj fields => (Json.lookupField key fields).getD Json.null
  | _ => Json.null

/-- `j.is_array()`. -/
def Json.isArr (j : Json) : Bool :=
  match j with
  | .arr _ => true
  | _ => false

/-- Element list of an array value (empty for non-arrays). -/
def Json.elems (j : Json) : List Json :=
  match j with
  | .arr es => es
  | _ => []

/-- `j.value(key, dflt)` for a string default: returns the default when the
key is absent, throws `type_error` when `j` is not an object or the bound
value is not a string. -/
def Json.valueStr (j : Json) (key dflt : String) : Except String String :=
  match j with
  | .obj fields =>
    match Json.lookupField key fields with
    | none => .ok dflt
    | some (.str s) => .ok s
    | some _ => .error "type_error: incompatible value type"
  | _ => .error "type_error: cannot use value() with this type"

/-- `j.value(key, dflt)` for a numeric default: returns the default when the
key is absent, throws `type_error` when `j` is not an object or the bound
value is not a number. -/
def Json.valueNum (j : Json) (key : String) (dflt : ℚ) : Except String ℚ :=
  match j with
  | .obj fields =>
    match Json.lookupField key fields with
    | none => .ok dflt
    | some (.num v) => .ok v
    | some _ => .error "type_error: incompatible value type"
  | _ => .error "type_error: cannot use value() with this type"

/-- `j.items()`: field list for objects, index-keyed elements for arrays,
empty for `null`, and a single anonymous item for other primitives. -/
def Json.items (j : Json) : List (String × Json) :=
  match j with
  | .obj fields => fields
  | .arr es => (List.range es.length).zip es |>.map (fun p => (toString p.1, p.2))
  | .null => []
  | other => [("", other)]

/-- Read a numeric field of an exported JSON object, with default (used
only to state theorems about exported documents). -/
def Json.getNumD (j : Json) (key : String) (dflt : ℚ) : ℚ :=
  match j with
  | .obj fields =>
    match Json.lookupField key fields with
    | some (.num v) => v
    | _ => dflt
  | _ => dflt

/- ============================================================
   Error codes and results (stars_ffi.h)
   ============================================================ -/

/-- `StarsErrorCode`, with the numeric discriminants of the header. -/
inductive StarsErrorCode where
  | ok
  | nullPointer
  | invalidJson
  | serialization
  | deserialization
  | invalidHandle
  | schedulingFailed
  | preschedulerFailed
  | io
  | unknown
deriving DecidableEq, Repr

/-- Numeric discriminant of each error code (stable ABI values). -/
def StarsErrorCode.toNat : StarsErrorCode → Nat
  | .ok => 0
  | .nullPointer => 1
  | .invalidJson => 2
  | .serialization => 3
  | .deserialization => 4
  | .invalidHandle => 5
  | .schedulingFailed => 6
  | .preschedulerFailed => 7
  | .io => 8
  | .unknown => 99

/-- `StarsResult`: error code plus owned advisory message
(`error_message == nullptr` is `none`). -/
structure StarsResult where
  code : StarsErrorCode
  error_message : Option String
deriving DecidableEq, Repr

/-- The value returned by `make_ok()`. -/
def mkOk : StarsResult := ⟨.ok, none⟩

/-- The `StarsResult` value built by `make_error` / `make_result` for a
(non-empty) message; the thread-local mirror of the message is modelled in
the Error Channel section. -/
def mkError (code : StarsErrorCode) (msg : String) : StarsResult :=
  ⟨code, some msg⟩

/-- The result every operation returns for a null required pointer. -/
def nullPointerResult : StarsResult :=
  mkError .nullPointer "Null pointer argument"

/- ============================================================
   Error Channel (thread-local g_last_error)
   ============================================================ -/

namespace ErrorChannel

/-- State of the thread-local `g_last_error` string (empty = cleared). -/
abbrev ErrState := String

/-- native `make_error`: stores the message in the slot and returns the
result carrying a copy of it. -/
def native_make_error (_st : ErrState) (code : StarsErrorCode) (msg : String) :
    ErrState × StarsResult :=
  (msg, ⟨code, some msg⟩)

/-- crates `make_result`: message duplicated into the result and mirrored
into the slot only when non-empty. -/
def crates_make_result (st : ErrState) (code : StarsErrorCode) (msg : String) :
    ErrState × StarsResult :=
  (if msg = "" then st else msg, ⟨code, if msg = "" then none else some msg⟩)

/-- `stars_get_last_error`: null when the slot is empty. -/
def stars_get_last_error (st : ErrState) : Option String :=
  if st = "" then none else some st

/-- `stars_clear_error`. -/
def stars_clear_error (_st : ErrState) : ErrState := ""

end ErrorChannel

/- ============================================================
   Native variant (backend/native/ffi/src/stars_ffi.cpp)
   ============================================================ -/

namespace Native

/-- A scheduling block of the native wrapper.  `stars_blocks_load_json`
only ever constructs `ObservationTask`s, so a block is its name, priority,
requested duration and target equatorial coordinates.  (The C++ narrows
the duration components to `int`; `Rat.floor` mirrors that narrowing for
the non-negative components that occur.) -/
structure Block where
  name : String
  priority : ℚ
  durationSecs : ℤ
  targetRa : ℚ
  targetDec : ℚ
deriving DecidableEq, Repr

/-- `StarsBlocksCollection`: the decoded blocks plus the source text
(kept as its parsed JSON value). -/
structure BlocksCollection where
  blocks : List Block
  source_json : Json

/-- `StarsContext` of the native wrapper: instrument location, execution
period (UTC timestamps as seconds), and the config text (parsed). -/
structure Context where
  instrumentLat : ℚ
  instrumentLon : ℚ
  instrumentAlt : ℚ
  periodBegin : ℤ
  periodEnd : ℤ
  config_json : Json

/-- One `ScheduleUnit`: task name and assigned period (seconds). -/
structure SchedUnit where
  taskName : String
  ubegin : ℤ
  uend : ℤ
deriving DecidableEq, Repr

/-- `StarsSchedule` of the native wrapper (`failInfo` carries no data the
wrapper reads, so it is elided). -/
structure Schedule where
  schedule : Option (List SchedUnit)
  unscheduled : List Block
  total_blocks : ℕ
  fitness : ℚ

/-- `StarsSchedulingParams` (the enum travels as a C integer). -/
structure SchedulingParams where
  algorithm : ℤ
  max_iterations : ℕ
  time_limit_seconds : ℚ
  seed : ℤ

/-- `stars_scheduling_params_default()`. -/
def stars_scheduling_params_default : SchedulingParams :=
  ⟨0, 0, 0, -1⟩

/-- `stars_context_create`.  `parseTime` is the external
`stars::time::TimeUTC` constructor (it may throw on a bad timestamp);
any exception escaping the body is caught and mapped to `InvalidJson`. -/
def stars_context_create (parseTime : String → Except String ℤ)
    (config : Option (Option Json)) (outNull : Bool) :
    StarsResult × Option Context :=
  match config with
  | none => (nullPointerResult, none)
  | some parsed =>
    if outNull then (nullPointerResult, none)
    else
      match parsed with
      | none => (mkError .invalidJson "json parse error", none)
      | some j =>
        if !j.containsKey "instrument" then
          (mkError .invalidJson "Missing \x27instrument\x27 in config", none)
        else
          -- j["instrument"].value("location", {}).value("latitude", 0.0), ...
          let loc : Except String (ℚ × ℚ × ℚ) :=
            match j.getKey "instrument" with
            | .obj fields =>
              let locJson := (Json.lookupField "location" fields).getD (Json.obj [])
              match locJson.valueNum "latitude" 0,
                    locJson.valueNum "longitude" 0,
                    locJson.valueNum "altitude" 0 with
              | .error e, _, _ => .error e
              | _, .error e, _ => .error e
              | _, _, .error e => .error e
              | .ok lat, .ok lon, .ok alt => .ok (lat, lon, alt)
            | _ => .error "type_error: cannot use value() with this type"
          match loc with
          | .error e => (mkError .invalidJson e, none)
          | .ok (lat, lon, alt) =>
            if !j.containsKey "executionPeriod" then
              (mkError .invalidJson "Missing \x27executionPeriod\x27 in config", none)
            else
              let periodJson := j.getKey "executionPeriod"
              match periodJson.valueStr "begin" "", periodJson.valueStr "end" "" with
              | .error e, _ => (mkError .invalidJson e, none)
              | _, .error e => (mkError .invalidJson e, none)
              | .ok beginStr, .ok endStr =>
                if beginStr = "" ∨ endStr = "" then
                  (mkError .invalidJson
                    "Invalid executionPeriod: missing begin or end", none)
                else
                  match parseTime beginStr, parseTime endStr with
                  | .error msg, _ => (mkError .invalidJson msg, none)
                  | _, .error msg => (mkError .invalidJson msg, none)
                  | .ok b, .ok e => (mkOk, some ⟨lat, lon, alt, b, e, j⟩)

/-- `stars_context_get_execution_period`.  `fmtTime` is the external
ISO-8601 formatter `format_datetime`; the duration is the external
`Period::GetDuration` / `Duration::Seconds()` pair.
Modelled from the spec: `Duration::Seconds()` of a period is its total
length in seconds, `end - begin` (the execution period carries a
"derived duration" of the window, exported as `duration_days`). -/
def stars_context_get_execution_period (fmtTime : ℤ → String)
    (handle : Option Context) (outNull : Bool) : StarsResult × Option Json :=
  match handle with
  | none => (nullPointerResult, none)
  | some ctx =>
    if outNull then (nullPointerResult, none)
    else
      let durationSecs : ℤ := ctx.periodEnd - ctx.periodBegin
      let days : ℚ := (durationSecs : ℚ) / 86400
      (mkOk, some (Json.obj
        [("begin", Json.str (fmtTime ctx.periodBegin)),
         ("end", Json.str (fmtTime ctx.periodEnd)),
         ("duration_days", Json.num days)]))

/-- `pat` is a prefix of the character list. -/
def chStartsWith : List Char → List Char → Bool
  | [], _ => true
  | _ :: _, [] => false
  | c :: cs, d :: ds => c == d && chStartsWith cs ds

/-- `pat` occurs as a contiguous substring of the character list. -/
def chHasSub (pat : List Char) : List Char → Bool
  | [] => chStartsWith pat []
  | d :: ds => chStartsWith pat (d :: ds) || chHasSub pat ds

/-- True when `key.find("ObservationTask") != std::string::npos`. -/
def keyHasObservationTask (key : String) : Bool :=
  chHasSub "ObservationTask".toList key.toList

/-- Build the block for one `(key, value)` item of a block element:
`none` when the key carries no recognized discriminator. -/
def buildBlockOfItem (key : String) (value : Json) :
    Except String (Option Block) :=
  if keyHasObservationTask key then do
    let name ← value.valueStr "name" "unnamed"
    let priority ← value.valueNum "priority" 1
    let hms ←
      if value.containsKey "duration" then do
        let dur := value.getKey "duration"
        let h ← dur.valueNum "hours" 0
        let m ← dur.valueNum "minutes" 0
        let s ← dur.valueNum "seconds" 0
        pure (h, m, s)
      else pure ((0 : ℚ), (0 : ℚ), (0 : ℚ))
    let target ←
      if value.containsKey "targetCoordinates" then do
        let tc := value.getKey "targetCoordinates"
        let ra ← tc.valueNum "ra" 0
        let dec ← tc.valueNum "dec" 0
        pure (ra, dec)
      else pure ((0 : ℚ), (0 : ℚ))
    pure (some
      ⟨name, priority,
       (hms.1.floor * 3600 + hms.2.1.floor * 60 + hms.2.2.floor),
       target.1, target.2⟩)
  else pure none

/-- The inner loop of `stars_blocks_load_json` over the items of one
element: recognized items append their block, unrecognized items are
skipped, a throw aborts. -/
def buildItemsLoop : List Block → List (String × Json) → Except String (List Block)
  | acc, [] => .ok acc
  | acc, (k, v) :: rest =>
    match buildBlockOfItem k v with
    | .error msg => .error msg
    | .ok (some b) => buildItemsLoop (acc ++ [b]) rest
    | .ok none => buildItemsLoop acc rest

/-- Blocks contributed by one element of the blocks array (its recognized
items, in order). -/
def buildBlocksOfElem (elem : Json) : Except String (List Block) :=
  buildItemsLoop [] elem.items

/-- The outer loop of `stars_blocks_load_json` over the elements of the
blocks array. -/
def loadElemsLoop : List Block → List Json → Except String (List Block)
  | acc, [] => .ok acc
  | acc, e :: rest =>
    match buildBlocksOfElem e with
    | .error msg => .error msg
    | .ok bs => loadElemsLoop (acc ++ bs) rest

/-- `stars_blocks_load_json`. -/
def stars_blocks_load_json (json : Option (Option Json)) (outNull : Bool) :
    StarsResult × Option BlocksCollection :=
  match json with
  | none => (nullPointerResult, none)
  | some parsed =>
    if outNull then (nullPointerResult, none)
    else
      match parsed with
      | none => (mkError .invalidJson "json parse error", none)
      | some j =>
        let blocksArray? : Option Json :=
          if j.containsKey "schedulingBlocks" then some (j.getKey "schedulingBlocks")
          else if j.isArr then some j
          else none
        match blocksArray? with
        | none => (mkError .invalidJson "No scheduling blocks found in JSON", none)
        | some ba =>
          if !ba.isArr then
            (mkError .invalidJson "schedulingBlocks must be an array", none)
          else
            match loadElemsLoop [] ba.elems with
            | .error msg => (mkError .invalidJson msg, none)
            | .ok blocks => (mkOk, some ⟨blocks, j⟩)

/-- JSON emitted for one block by `stars_blocks_to_json` /
`stars_blocks_get_at` (every native block is a `Task`, so the
`dynamic_pointer_cast` always succeeds and the stored priority is used). -/
def blockToJson (b : Block) : Json :=
  Json.obj [("name", Json.str b.name), ("priority", Json.num b.priority)]

/-- `stars_blocks_to_json`. -/
def stars_blocks_to_json (handle : Option BlocksCollection) (outNull : Bool) :
    StarsResult × Option Json :=
  match handle with
  | none => (nullPointerResult, none)
  | some coll =>
    if outNull then (nullPointerResult, none)
    else (mkOk, some (Json.arr (coll.blocks.map blockToJson)))

/-- `stars_blocks_count`. -/
def stars_blocks_count (handle : Option BlocksCollection) (outNull : Bool) :
    StarsResult × Option ℕ :=
  match handle with
  | none => (nullPointerResult, none)
  | some coll =>
    if outNull then (nullPointerResult, none)
    else (mkOk, some coll.blocks.length)

/-- `stars_blocks_get_at`. -/
def stars_blocks_get_at (handle : Option BlocksCollection) (index : ℕ)
    (outNull : Bool) : StarsResult × Option Json :=
  match handle with
  | none => (nullPointerResult, none)
  | some coll =>
    if outNull then (nullPointerResult, none)
    else
      if h : coll.blocks.length ≤ index then
        (mkError .invalidHandle "Index out of bounds", none)
      else
        (mkOk, some (blockToJson (coll.blocks.get
          ⟨index, by omega⟩)))

/-- `stars_compute_possible_periods`.  The external
`prescheduler::ComputePeriods` mutates the blocks in place; the handle
only records that the computation ran.  `pres` is that collaborator
(`.error` = it threw). -/
def stars_compute_possible_periods (pres : Except String Unit)
    (ctx : Option Context) (blocks : Option BlocksCollection)
    (outNull : Bool) : StarsResult × Option Bool :=
  match ctx, blocks with
  | none, _ => (nullPointerResult, none)
  | _, none => (nullPointerResult, none)
  | some _, some _ =>
    if outNull then (nullPointerResult, none)
    else
      match pres with
      | .error e => (mkError .preschedulerFailed e, none)
      | .ok _ => (mkOk, some true)

/-- Outcome type of the external scheduling engines: possibly-null
schedule plus the unplanned blocks (`FailInformation` elided). -/
abbrev EngineOutcome := Option (List SchedUnit) × List Block

/-- `stars_run_scheduler`.  `pres` is the internal
`prescheduler::ComputePeriods` re-run (used only when the periods handle
is null or not computed); `engineAcc` / `engineHyb` are the two external
engines; every exception in the body maps to `SchedulingFailed`. -/
def stars_run_scheduler (pres : Except String Unit)
    (engineAcc engineHyb : List Block → Except String EngineOutcome)
    (ctx : Option Context) (blocks : Option BlocksCollection)
    (possible_periods : Option Bool) (params : SchedulingParams)
    (outNull : Bool) : StarsResult × Option Schedule :=
  match ctx, blocks with
  | none, _ => (nullPointerResult, none)
  | _, none => (nullPointerResult, none)
  | some _, some coll =>
    if outNull then (nullPointerResult, none)
    else
      -- periods recomputed when the handle is null or not computed
      match (if possible_periods.getD false = false then pres else .ok ()) with
      | .error e => (mkError .schedulingFailed e, none)
      | .ok _ =>
        let engine := if params.algorithm = 1 then engineHyb else engineAcc
        match engine coll.blocks with
        | .error e => (mkError .schedulingFailed e, none)
        | .ok (sched, unplanned) =>
          let scheduled : ℕ := coll.blocks.length - unplanned.length
          let fitness : ℚ :=
            if coll.blocks.length > 0 then
              (scheduled : ℚ) / (coll.blocks.length : ℚ)
            else 0
          (mkOk, some ⟨sched, unplanned, coll.blocks.length, fitness⟩)

/-- `stars_schedule_to_json`. -/
def stars_schedule_to_json (fmtTime : ℤ → String)
    (handle : Option Schedule) (outNull : Bool) : StarsResult × Option Json :=
  match handle with
  | none => (nullPointerResult, none)
  | some s =>
    if outNull then (nullPointerResult, none)
    else
      let units : List Json :=
        match s.schedule with
        | some us => us.map (fun u => Json.obj
            [("task_id", Json.str u.taskName),
             ("task_name", Json.str u.taskName),
             ("begin", Json.str (fmtTime u.ubegin)),
             ("end", Json.str (fmtTime u.uend))])
        | none => []
      let unscheduledJson : List Json :=
        s.unscheduled.map (fun b => Json.obj
          [("id", Json.str b.name), ("name", Json.str b.name)])
      (mkOk, some (Json.obj
        [("units", Json.arr units),
         ("unscheduled", Json.arr unscheduledJson),
         ("fitness", Json.num s.fitness),
         ("scheduled_count", Json.num (units.length : ℚ)),
         ("unscheduled_count", Json.num (s.unscheduled.length : ℚ))]))

/-- `stars_schedule_get_stats`. -/
def stars_schedule_get_stats (handle : Option Schedule) (outNull : Bool) :
    StarsResult × Option Json :=
  match handle with
  | none => (nullPointerResult, none)
  | some s =>
    if outNull then (nullPointerResult, none)
    else
      let scheduled : ℕ := s.total_blocks - s.unscheduled.length
      let unscheduled : ℕ := s.unscheduled.length
      let total : ℕ := s.total_blocks
      let rate : ℚ := if total > 0 then (scheduled : ℚ) / (total : ℚ) else 0
      (mkOk, some (Json.obj
        [("scheduled_count", Json.num (scheduled : ℚ)),
         ("unscheduled_count", Json.num (unscheduled : ℚ)),
         ("total_blocks", Json.num (total : ℚ)),
         ("scheduling_rate", Json.num rate),
         ("fitness", Json.num s.fitness)]))

end Native

/- ============================================================
   Crates variant (backend/crates/stars-core-native/ffi/src/stars_ffi.cpp)
   ============================================================ -/

namespace Crates

/-- An instrument model (opaque to the wrapper; produced by the external
deserializer `Instrument::Load`). -/
structure Instrument where
  ident : ℤ
deriving DecidableEq, Repr

/-- A scheduling block of the crates wrapper (the wrapper only reads
`GetId` and `GetName`). -/
structure CBlock where
  cid : String
  cname : String
deriving DecidableEq, Repr

/-- `StarsContext` of the crates wrapper: the instrument is optional
(loaded only when the config carries an `instrument` field), the execution
period defaults to the default-constructed `Period` (modelled `(0, 0)`). -/
structure Context where
  instrument : Option Instrument
  periodBegin : ℤ
  periodEnd : ℤ
  observatoryName : String
deriving DecidableEq, Repr

/-- `stars::constraints::PossiblePeriodsMap`: block id to candidate
windows. -/
abbrev PeriodsMap := List (String × List (ℤ × ℤ))

/-- `StarsPossiblePeriods` of the crates wrapper. -/
structure PossiblePeriods where
  periods : PeriodsMap
  blockNamesById : List (String × String)

/-- `StarsSchedule` of the crates wrapper. -/
structure Schedule where
  schedule : Option (List Native.SchedUnit)
  blocks : List CBlock
  unscheduled : List CBlock
  fitness : ℚ

/-- `stars_context_create` (crates).  `instrLoad` is the external
`Instrument::Load` deserializer, `parseTime` the `TimeUTC` constructor;
a `parse_error` of the config text maps to `InvalidJson`, every other
exception to `Deserialization`. -/
def stars_context_create (instrLoad : Json → Except String Instrument)
    (parseTime : String → Except String ℤ)
    (config : Option (Option Json)) (outNull : Bool) :
    StarsResult × Option Context :=
  match config with
  | none => (nullPointerResult, none)
  | some parsed =>
    if outNull then (nullPointerResult, none)
    else
      match parsed with
      | none => (mkError .invalidJson "JSON parse error", none)
      | some j =>
        let instrument : Except String (Option Instrument) :=
          if j.containsKey "instrument" then
            match instrLoad (j.getKey "instrument") with
            | .error e => .error e
            | .ok i => .ok (some i)
          else .ok none
        match instrument with
        | .error e =>
          (mkError .deserialization ("Failed to create context: " ++ e), none)
        | .ok instr =>
          -- ep["begin"] / ep["end"] .get<std::string>() throw unless strings
          let period : Except String (ℤ × ℤ) :=
            if j.containsKey "executionPeriod" then
              let ep := j.getKey "executionPeriod"
              match ep.getKey "begin", ep.getKey "end" with
              | .str beginStr, .str endStr =>
                (match parseTime beginStr, parseTime endStr with
                 | .error e, _ => .error e
                 | _, .error e => .error e
                 | .ok b, .ok e => .ok (b, e))
              | .str _, _ => .error "type_error: type must be string"
              | _, _ => .error "type_error: type must be string"
            else .ok (0, 0)
          match period with
          | .error e =>
            (mkError .deserialization ("Failed to create context: " ++ e), none)
          | .ok p =>
            let observatory : Except String String :=
              if j.containsKey "observatory" then
                match j.getKey "observatory" with
                | .str s => .ok s
                | _ => .error "type_error: type must be string"
              else .ok ""
            match observatory with
            | .error e =>
              (mkError .deserialization ("Failed to create context: " ++ e), none)
            | .ok obs => (mkOk, some ⟨instr, p.1, p.2, obs⟩)

/-- `stars_context_get_execution_period` (crates).
Modelled from the spec: `Duration::TotalHours()` of a period is its total
length in hours, `(end - begin) / 3600`. -/
def stars_context_get_execution_period (fmtTime : ℤ → String)
    (handle : Option Context) (outNull : Bool) : StarsResult × Option Json :=
  match handle with
  | none => (nullPointerResult, none)
  | some ctx =>
    if outNull then (nullPointerResult, none)
    else
      let totalHours : ℚ := ((ctx.periodEnd - ctx.periodBegin : ℤ) : ℚ) / 3600
      (mkOk, some (Json.obj
        [("begin", Json.str (fmtTime ctx.periodBegin)),
         ("end", Json.str (fmtTime ctx.periodEnd)),
         ("duration_days", Json.num (totalHours / 24))]))

/-- `stars_compute_possible_periods` (crates).  `computePeriods` is the
external `prescheduler::ComputePeriods` collaborator (`.error` = it
threw). -/
def stars_compute_possible_periods
    (computePeriods : Instrument → List CBlock → ℤ × ℤ → Except String PeriodsMap)
    (ctx : Option Context) (blocks : Option (List CBlock))
    (outNull : Bool) : StarsResult × Option PossiblePeriods :=
  match ctx, blocks with
  | none, _ => (nullPointerResult, none)
  | _, none => (nullPointerResult, none)
  | some c, some bs =>
    if outNull then (nullPointerResult, none)
    else
      match c.instrument with
      | none => (mkError .invalidHandle "Context has no instrument configured", none)
      | some instr =>
        match computePeriods instr bs (c.periodBegin, c.periodEnd) with
        | .error e =>
          (mkError .preschedulerFailed ("Prescheduler failed: " ++ e), none)
        | .ok m =>
          (mkOk, some ⟨m, bs.map (fun b => (b.cid, b.cname))⟩)

/-- `stars_blocks_get_at` (crates).  `serialize` is the external
serializer applied to the block at the index. -/
def stars_blocks_get_at (serialize : CBlock → Except String Json)
    (handle : Option (List CBlock)) (index : ℕ) (outNull : Bool) :
    StarsResult × Option Json :=
  match handle with
  | none => (nullPointerResult, none)
  | some bs =>
    if outNull then (nullPointerResult, none)
    else
      if h : bs.length ≤ index then
        (mkError .invalidHandle "Index out of bounds", none)
      else
        match serialize (bs.get ⟨index, by omega⟩) with
        | .ok js => (mkOk, some js)
        | .error e =>
          (mkError .serialization ("Failed to serialize block: " ++ e), none)

/-- `stars_run_scheduler` (crates).  The algorithm switch runs first
(unknown values are `SchedulingFailed`), then possible periods are taken
from the handle or recomputed (the computed map is built but, as in the
source, not handed to the engine), then the external engine runs.
`computeFitness` is `Schedule::ComputeFitness`. -/
def stars_run_scheduler
    (computePeriods : Except String PeriodsMap)
    (engineAcc engineHyb :
      List CBlock → Except String (Option (List Native.SchedUnit) × List CBlock))
    (computeFitness : List Native.SchedUnit → ℚ)
    (ctx : Option Context) (blocks : Option (List CBlock))
    (possible_periods : Option PossiblePeriods)
    (params : Native.SchedulingParams) (outNull : Bool) :
    StarsResult × Option Schedule :=
  match ctx, blocks with
  | none, _ => (nullPointerResult, none)
  | _, none => (nullPointerResult, none)
  | some c, some bs =>
    if outNull then (nullPointerResult, none)
    else
      match c.instrument with
      | none => (mkError .invalidHandle "Context has no instrument configured", none)
      | some _ =>
        let engine? :=
          if params.algorithm = 0 then some engineAcc
          else if params.algorithm = 1 then some engineHyb
          else none
        match engine? with
        | none => (mkError .schedulingFailed "Unknown algorithm type", none)
        | some engine =>
          -- the periods map is taken from the handle or recomputed, but
          -- (as in the source) not handed to the engine
          match (match possible_periods with
                 | some p => Except.ok p.periods
                 | none => computePeriods) with
          | .error e =>
            (mkError .schedulingFailed ("Scheduling failed: " ++ e), none)
          | .ok _periodsMap =>
            match engine bs with
            | .error e =>
              (mkError .schedulingFailed ("Scheduling failed: " ++ e), none)
            | .ok (sched, unscheduled) =>
              let fitness :=
                match sched with
                | some us => computeFitness us
                | none => 0
              (mkOk, some ⟨sched, bs, unscheduled, fitness⟩)

/-- `stars_schedule_to_json` (crates). -/
def stars_schedule_to_json (fmtTime : ℤ → String)
    (handle : Option Schedule) (outNull : Bool) : StarsResult × Option Json :=
  match handle with
  | none => (nullPointerResult, none)
  | some s =>
    if outNull then (nullPointerResult, none)
    else
      let headFields : List (String × Json) :=
        match s.schedule with
        | some us =>
          [("units", Json.arr (us.map (fun u => Json.obj
              [("task_id", Json.str u.taskName),
               ("task_name", Json.str u.taskName),
               ("begin", Json.str (fmtTime u.ubegin)),
               ("end", Json.str (fmtTime u.uend))]))),
           ("fitness", Json.num s.fitness),
           ("scheduled_count", Json.num (us.length : ℚ))]
        | none =>
          [("units", Json.arr []),
           ("fitness", Json.num 0),
           ("scheduled_count", Json.num 0)]
      let unscheduledJson : List Json :=
        s.unscheduled.map (fun b => Json.obj
          [("id", Json.str b.cid), ("name", Json.str b.cname)])
      (mkOk, some (Json.obj (headFields ++
        [("unscheduled", Json.arr unscheduledJson),
         ("unscheduled_count", Json.num (s.unscheduled.length : ℚ))])))

/-- `stars_schedule_get_stats` (crates). -/
def stars_schedule_get_stats (handle : Option Schedule) (outNull : Bool) :
    StarsResult × Option Json :=
  match handle with
  | none => (nullPointerResult, none)
  | some s =>
    if outNull then (nullPointerResult, none)
    else
      let scheduledCount : ℕ :=
        match s.schedule with
        | some us => us.length
        | none => 0
      let unscheduledCount : ℕ := s.unscheduled.length
      let totalCount : ℕ := scheduledCount + unscheduledCount
      let rate : ℚ :=
        if totalCount > 0 then (scheduledCount : ℚ) / (totalCount : ℚ) else 0
      (mkOk, some (Json.obj
        [("scheduled_count", Json.num (scheduledCount : ℚ)),
         ("unscheduled_count", Json.num (unscheduledCount : ℚ)),
         ("total_blocks", Json.num (totalCount : ℚ)),
         ("scheduling_rate", Json.num rate),
         ("fitness", Json.num s.fitness)]))

end Crates

/- ============================================================
   Pipeline Orchestrator (handle lifecycle)
   ============================================================ -/

/-- The four opaque handle families allocated by a pipeline run. -/
inductive HKind where
  | ctx
  | blocks
  | periods
  | schedule
deriving DecidableEq, BEq, Repr

/-- `stars_run_full_pipeline` (native variant), at the granularity of its
five stage calls.  Each `r*` is the `StarsResult` of one stage call
(`r1` = `stars_context_create`, `r2` = `stars_blocks_load_json`,
`r3` = `stars_compute_possible_periods`, `r4` = `stars_run_scheduler`,
`r5` = `stars_schedule_to_json`); a stage writes its handle exactly when
it returns `STARS_OK` (proved for the stage operations in the claims
below).  The second component is the list of pipeline-allocated handles
still live when the function returns; destruction is `List.erase`,
mirroring each `stars_*_destroy` call of the source branch by branch. -/
def stars_run_full_pipeline_native (r1 r2 r3 r4 r5 : StarsResult) :
    StarsResult × List HKind :=
  if r1.code ≠ .ok then (r1, [])
  else
    let live := [HKind.ctx]
    if r2.code ≠ .ok then (r2, live.erase HKind.ctx)
    else
      let live := HKind.blocks :: live
      if r3.code ≠ .ok then (r3, (live.erase HKind.blocks).erase HKind.ctx)
      else
        let live := HKind.periods :: live
        if r4.code ≠ .ok then
          (r4, ((live.erase HKind.periods).erase HKind.blocks).erase HKind.ctx)
        else
          let live := HKind.schedule :: live
          (r5, (((live.erase HKind.schedule).erase HKind.periods).erase
            HKind.blocks).erase HKind.ctx)

/-- `stars_run_pipeline_from_file` (native): reads the file, then behaves
as `stars_run_full_pipeline`; a read failure allocates nothing. -/
def stars_run_pipeline_from_file_native (fileOk : Bool)
    (r1 r2 r3 r4 r5 : StarsResult) : StarsResult × List HKind :=
  if !fileOk then (mkError .io "Cannot open file", [])
  else stars_run_full_pipeline_native r1 r2 r3 r4 r5

/-- `stars_run_full_pipeline` (crates variant): four stage calls
(`r1` = `stars_context_create`, `r2` = `stars_blocks_load_json`,
`r3` = `stars_run_scheduler` with a null periods handle,
`r4` = `stars_schedule_to_json`); no PossiblePeriods handle exists. -/
def stars_run_full_pipeline_crates (r1 r2 r3 r4 : StarsResult) :
    StarsResult × List HKind :=
  if r1.code ≠ .ok then (r1, [])
  else
    let live := [HKind.ctx]
    if r2.code ≠ .ok then (r2, live.erase HKind.ctx)
    else
      let live := HKind.blocks :: live
      if r3.code ≠ .ok then (r3, (live.erase HKind.ctx).erase HKind.blocks)
      else
        let live := HKind.schedule :: live
        (r4, ((live.erase HKind.schedule).erase HKind.blocks).erase HKind.ctx)

/-- `stars_run_pipeline_from_file` (crates): same four-stage structure,
with the create/load stages reading from the file. -/
def stars_run_pipeline_from_file_crates (r1 r2 r3 r4 : StarsResult) :
    StarsResult × List HKind :=
  stars_run_full_pipeline_crates r1 r2 r3 r4

/- ============================================================
   Remaining exposed fallible operations
   ============================================================ -/

/-- nlohmann range-for over a JSON value: the elements of an array, the
field values of an object, nothing for `null`, the value itself for
other primitives. -/
def Json.iterVals (j : Json) : List Json :=
  match j with
  | .arr es => es
  | .obj fields => fields.map (fun p => p.2)
  | .null => []
  | other => [other]

namespace Native

/-- `stars_context_create_from_file`: null checks, then the file is read
(`none` = unreadable, mapped to IO) and the text is handed to
`stars_context_create`. -/
def stars_context_create_from_file (parseTime : String → Except String ℤ)
    (file : Option (Option (Option Json))) (outNull : Bool) :
    StarsResult × Option Context :=
  match file with
  | none => (nullPointerResult, none)
  | some content? =>
    if outNull then (nullPointerResult, none)
    else
      match content? with
      | none => (mkError .io "Cannot open file", none)
      | some content => stars_context_create parseTime (some content) outNull

/-- `stars_blocks_load_file`: null checks, file read, then delegation to
`stars_blocks_load_json`. -/
def stars_blocks_load_file (file : Option (Option (Option Json)))
    (outNull : Bool) : StarsResult × Option BlocksCollection :=
  match file with
  | none => (nullPointerResult, none)
  | some content? =>
    if outNull then (nullPointerResult, none)
    else
      match content? with
      | none => (mkError .io "Cannot open file", none)
      | some content => stars_blocks_load_json (some content) outNull

/-- `stars_possible_periods_to_json` (native): the periods live in the
blocks, so a valid handle always exports the empty array. -/
def stars_possible_periods_to_json (handle : Option Bool) (outNull : Bool) :
    StarsResult × Option Json :=
  match handle with
  | none => (nullPointerResult, none)
  | some _ =>
    if outNull then (nullPointerResult, none)
    else (mkOk, some (Json.arr []))

end Native

namespace Crates

/-- The element loop of the crates `stars_blocks_load_json`: the external
deserializer either throws (aborting the load), returns a block (kept),
or returns a null pointer (skipped). -/
def loadCBlocksLoop (deser : Json → Except String (Option CBlock)) :
    List CBlock → List Json → Except String (List CBlock)
  | acc, [] => .ok acc
  | acc, e :: rest =>
    match deser e with
    | .error msg => .error msg
    | .ok (some b) => loadCBlocksLoop deser (acc ++ [b]) rest
    | .ok none => loadCBlocksLoop deser acc rest

/-- `stars_blocks_load_json` (crates).  `deser` is the external
type-registry deserializer applied to each element.
Modelled from the spec: that deserializer dispatches on the type
discriminator embedded in the element; an element carrying an
unrecognized discriminator yields a null block pointer — the documented
lenient-skip policy — rather than throwing, and only genuinely malformed
elements throw. -/
def stars_blocks_load_json (deser : Json → Except String (Option CBlock))
    (json : Option (Option Json)) (outNull : Bool) :
    StarsResult × Option (List CBlock) :=
  match json with
  | none => (nullPointerResult, none)
  | some parsed =>
    if outNull then (nullPointerResult, none)
    else
      match parsed with
      | none => (mkError .invalidJson "JSON parse error", none)
      | some data =>
        let blocksArray? : Option Json :=
          if data.isArr then some data
          else if data.containsKey "schedulingBlocks" then
            some (data.getKey "schedulingBlocks")
          else none
        match blocksArray? with
        | none =>
          (mkError .invalidJson
            "Expected array or object with \x27schedulingBlocks\x27 key", none)
        | some ba =>
          match loadCBlocksLoop deser [] ba.iterVals with
          | .error e =>
            (mkError .deserialization ("Failed to load blocks: " ++ e), none)
          | .ok bs => (mkOk, some bs)

/-- `stars_blocks_load_file` (crates).  `loader` is the external
`ScheduleJsonLoader::LoadBlocks` (a throw maps to IO). -/
def stars_blocks_load_file (loader : Except String (List CBlock))
    (path : Option Unit) (outNull : Bool) : StarsResult × Option (List CBlock) :=
  match path with
  | none => (nullPointerResult, none)
  | some _ =>
    if outNull then (nullPointerResult, none)
    else
      match loader with
      | .error e => (mkError .io ("Failed to load file: " ++ e), none)
      | .ok bs => (mkOk, some bs)

/-- `stars_context_create_from_file` (crates).  `loader` is the external
`ScheduleJsonLoader` (content, instrument and period; a throw maps to
IO). -/
def stars_context_create_from_file (loader : Except String Context)
    (path : Option Unit) (outNull : Bool) : StarsResult × Option Context :=
  match path with
  | none => (nullPointerResult, none)
  | some _ =>
    if outNull then (nullPointerResult, none)
    else
      match loader with
      | .error e => (mkError .io ("Failed to load file: " ++ e), none)
      | .ok ctx => (mkOk, some ctx)

/-- `stars_blocks_to_json` (crates).  `builder` is the external
`ScheduleJsonBuilder::Build`. -/
def stars_blocks_to_json (builder : List CBlock → Except String Json)
    (handle : Option (List CBlock)) (outNull : Bool) :
    StarsResult × Option Json :=
  match handle with
  | none => (nullPointerResult, none)
  | some bs =>
    if outNull then (nullPointerResult, none)
    else
      match builder bs with
      | .error e =>
        (mkError .serialization ("Failed to serialize blocks: " ++ e), none)
      | .ok js => (mkOk, some js)

/-- `stars_blocks_count` (crates). -/
def stars_blocks_count (handle : Option (List CBlock)) (outNull : Bool) :
    StarsResult × Option ℕ :=
  match handle with
  | none => (nullPointerResult, none)
  | some bs =>
    if outNull then (nullPointerResult, none)
    else (mkOk, some bs.length)

/-- First binding in the `blockNamesById` map (`emplace` keeps the first
insertion for a duplicated id). -/
def lookupName : List (String × String) → String → Option String
  | [], _ => none
  | (k, v) :: rest, key => if k = key then some v else lookupName rest key

/-- `stars_possible_periods_to_json` (crates). -/
def stars_possible_periods_to_json (fmtTime : ℤ → String)
    (handle : Option PossiblePeriods) (outNull : Bool) :
    StarsResult × Option Json :=
  match handle with
  | none => (nullPointerResult, none)
  | some h =>
    if outNull then (nullPointerResult, none)
    else
      (mkOk, some (Json.arr (h.periods.map (fun bp =>
        Json.obj
          [("block_id", Json.str bp.1),
           ("block_name",
             Json.str ((lookupName h.blockNamesById bp.1).getD bp.1)),
           ("periods", Json.arr (bp.2.map (fun p =>
             Json.obj [("begin", Json.str (fmtTime p.1)),
                       ("end", Json.str (fmtTime p.2))])))]))))

end Crates

/-- The entry null check of the native `stars_run_full_pipeline`
(performed before any stage call). -/
def stars_run_full_pipeline_native_checked (input_json : Option (Option Json))
    (outNull : Bool) (r1 r2 r3 r4 r5 : StarsResult) :
    StarsResult × List HKind :=
  if input_json.isNone || outNull then (nullPointerResult, [])
  else stars_run_full_pipeline_native r1 r2 r3 r4 r5

/-- The entry null check of the native `stars_run_pipeline_from_file`. -/
def stars_run_pipeline_from_file_native_checked (path : Option Unit)
    (outNull : Bool) (fileOk : Bool) (r1 r2 r3 r4 r5 : StarsResult) :
    StarsResult × List HKind :=
  if path.isNone || outNull then (nullPointerResult, [])
  else stars_run_pipeline_from_file_native fileOk r1 r2 r3 r4 r5

/-- The entry null check of the crates `stars_run_full_pipeline`. -/
def stars_run_full_pipeline_crates_checked (input_json : Option (Option Json))
    (outNull : Bool) (r1 r2 r3 r4 : StarsResult) : StarsResult × List HKind :=
  if input_json.isNone || outNull then (nullPointerResult, [])
  else stars_run_full_pipeline_crates r1 r2 r3 r4

/-- The entry null check of the crates `stars_run_pipeline_from_file`. -/
def stars_run_pipeline_from_file_crates_checked (path : Option Unit)
    (outNull : Bool) (r1 r2 r3 r4 : StarsResult) : StarsResult × List HKind :=
  if path.isNone || outNull then (nullPointerResult, [])
  else stars_run_pipeline_from_file_crates r1 r2 r3 r4

/- ============================================================
   Claims
   ============================================================ -/

/-- Both pipeline shapes free every handle they allocate before returning,
whatever the five (resp. four) stage results are. -/
theorem pipeline_native_live_nil (r1 r2 r3 r4 r5 : StarsResult) :
    (stars_run_full_pipeline_native r1 r2 r3 r4 r5).2 = [] := by
  simp only [stars_run_full_pipeline_native]
  split_ifs <;> rfl

/-- Crates pipeline counterpart of `pipeline_native_live_nil`. -/
theorem pipeline_crates_live_nil (r1 r2 r3 r4 : StarsResult) :
    (stars_run_full_pipeline_crates r1 r2 r3 r4).2 = [] := by
  simp only [stars_run_full_pipeline_crates]
  split_ifs <;> rfl

/-- Claim C1: whenever `stars_run_full_pipeline` or
`stars_run_pipeline_from_file` (either variant) returns a non-Ok result,
every handle the invocation successfully created at earlier stages has
been destroyed before the error is returned: the list of still-live
pipeline-allocated handles is empty. -/
theorem pipeline_failure_frees_all_handles
    (r1 r2 r3 r4 r5 : StarsResult) (fileOk : Bool)
    (q1 q2 q3 q4 : StarsResult) :
    ((stars_run_full_pipeline_native r1 r2 r3 r4 r5).1.code ≠ .ok →
      (stars_run_full_pipeline_native r1 r2 r3 r4 r5).2 = []) ∧
    ((stars_run_pipeline_from_file_native fileOk r1 r2 r3 r4 r5).1.code ≠ .ok →
      (stars_run_pipeline_from_file_native fileOk r1 r2 r3 r4 r5).2 = []) ∧
    ((stars_run_full_pipeline_crates q1 q2 q3 q4).1.code ≠ .ok →
      (stars_run_full_pipeline_crates q1 q2 q3 q4).2 = []) ∧
    ((stars_run_pipeline_from_file_crates q1 q2 q3 q4).1.code ≠ .ok →
      (stars_run_pipeline_from_file_crates q1 q2 q3 q4).2 = []) := by
  refine ⟨fun _ => pipeline_native_live_nil r1 r2 r3 r4 r5, fun _ => ?_,
    fun _ => pipeline_crates_live_nil q1 q2 q3 q4,
    fun _ => pipeline_crates_live_nil q1 q2 q3 q4⟩
  simp only [stars_run_pipeline_from_file_native]
  split_ifs
  · rfl
  · exact pipeline_native_live_nil r1 r2 r3 r4 r5

/-- Witness for C1 at a concrete failing stage (blocks loading fails in
the native pipeline, scheduling fails in the crates pipeline). -/
theorem pipeline_failure_frees_all_handles_witness :
    (stars_run_full_pipeline_native mkOk (mkError .invalidJson "bad blocks")
        mkOk mkOk mkOk).2 = [] ∧
    (stars_run_full_pipeline_crates mkOk mkOk
        (mkError .schedulingFailed "engine threw") mkOk).2 = [] :=
  ⟨(pipeline_failure_frees_all_handles mkOk (mkError .invalidJson "bad blocks")
      mkOk mkOk mkOk true mkOk mkOk mkOk mkOk).1 (by decide),
   (pipeline_failure_frees_all_handles mkOk mkOk mkOk mkOk mkOk true
      mkOk mkOk (mkError .schedulingFailed "engine threw") mkOk).2.2.1 (by decide)⟩

/-- Claim C3: for every exposed fallible operation of both variants —
context create / create-from-file / execution-period export, blocks
load-json / load-file / to-json / count / get-at, possible-periods
compute / to-json, run-scheduler, schedule to-json / get-stats, and the
two pipeline shapes — a null required pointer argument (input text or
path, handle, or out-parameter) makes the operation return the
NullPointer result with the out-parameter left unwritten, for every
value of the remaining arguments — i.e. the null check precedes any
other validation.  In particular `stars_run_scheduler` (both variants)
with a null Context handle returns NullPointer and leaves the output
Schedule handle unwritten. -/
theorem null_pointer_checked_first :
    -- native variant
    (∀ pt outN, Native.stars_context_create pt none outN =
      (nullPointerResult, none)) ∧
    (∀ pt cfg, Native.stars_context_create pt (some cfg) true =
      (nullPointerResult, none)) ∧
    (∀ pt outN, Native.stars_context_create_from_file pt none outN =
      (nullPointerResult, none)) ∧
    (∀ pt f, Native.stars_context_create_from_file pt (some f) true =
      (nullPointerResult, none)) ∧
    (∀ fmt outN, Native.stars_context_get_execution_period fmt none outN =
      (nullPointerResult, none)) ∧
    (∀ fmt c, Native.stars_context_get_execution_period fmt (some c) true =
      (nullPointerResult, none)) ∧
    (∀ outN, Native.stars_blocks_load_json none outN =
      (nullPointerResult, none)) ∧
    (∀ p, Native.stars_blocks_load_json (some p) true =
      (nullPointerResult, none)) ∧
    (∀ outN, Native.stars_blocks_load_file none outN =
      (nullPointerResult, none)) ∧
    (∀ f, Native.stars_blocks_load_file (some f) true =
      (nullPointerResult, none)) ∧
    (∀ outN, Native.stars_blocks_to_json none outN =
      (nullPointerResult, none)) ∧
    (∀ coll, Native.stars_blocks_to_json (some coll) true =
      (nullPointerResult, none)) ∧
    (∀ outN, Native.stars_blocks_count none outN =
      (nullPointerResult, none)) ∧
    (∀ coll, Native.stars_blocks_count (some coll) true =
      (nullPointerResult, none)) ∧
    (∀ i outN, Native.stars_blocks_get_at none i outN =
      (nullPointerResult, none)) ∧
    (∀ coll i, Native.stars_blocks_get_at (some coll) i true =
      (nullPointerResult, none)) ∧
    (∀ pres bs outN, Native.stars_compute_possible_periods pres none bs outN =
      (nullPointerResult, none)) ∧
    (∀ pres c outN,
      Native.stars_compute_possible_periods pres (some c) none outN =
      (nullPointerResult, none)) ∧
    (∀ pres c b,
      Native.stars_compute_possible_periods pres (some c) (some b) true =
      (nullPointerResult, none)) ∧
    (∀ outN, Native.stars_possible_periods_to_json none outN =
      (nullPointerResult, none)) ∧
    (∀ h, Native.stars_possible_periods_to_json (some h) true =
      (nullPointerResult, none)) ∧
    (∀ pres ea eh bs pp params outN,
      Native.stars_run_scheduler pres ea eh none bs pp params outN =
      (nullPointerResult, none)) ∧
    (∀ pres ea eh c pp params outN,
      Native.stars_run_scheduler pres ea eh (some c) none pp params outN =
      (nullPointerResult, none)) ∧
    (∀ pres ea eh c b pp params,
      Native.stars_run_scheduler pres ea eh (some c) (some b) pp params true =
      (nullPointerResult, none)) ∧
    (∀ fmt outN, Native.stars_schedule_to_json fmt none outN =
      (nullPointerResult, none)) ∧
    (∀ fmt s, Native.stars_schedule_to_json fmt (some s) true =
      (nullPointerResult, none)) ∧
    (∀ outN, Native.stars_schedule_get_stats none outN =
      (nullPointerResult, none)) ∧
    (∀ s, Native.stars_schedule_get_stats (some s) true =
      (nullPointerResult, none)) ∧
    -- crates variant
    (∀ il pt outN, Crates.stars_context_create il pt none outN =
      (nullPointerResult, none)) ∧
    (∀ il pt cfg, Crates.stars_context_create il pt (some cfg) true =
      (nullPointerResult, none)) ∧
    (∀ ld outN, Crates.stars_context_create_from_file ld none outN =
      (nullPointerResult, none)) ∧
    (∀ ld p, Crates.stars_context_create_from_file ld (some p) true =
      (nullPointerResult, none)) ∧
    (∀ fmt outN, Crates.stars_context_get_execution_period fmt none outN =
      (nullPointerResult, none)) ∧
    (∀ fmt c, Crates.stars_context_get_execution_period fmt (some c) true =
      (nullPointerResult, none)) ∧
    (∀ ds outN, Crates.stars_blocks_load_json ds none outN =
      (nullPointerResult, none)) ∧
    (∀ ds p, Crates.stars_blocks_load_json ds (some p) true =
      (nullPointerResult, none)) ∧
    (∀ ld outN, Crates.stars_blocks_load_file ld none outN =
      (nullPointerResult, none)) ∧
    (∀ ld p, Crates.stars_blocks_load_file ld (some p) true =
      (nullPointerResult, none)) ∧
    (∀ bd outN, Crates.stars_blocks_to_json bd none outN =
      (nullPointerResult, none)) ∧
    (∀ bd bs, Crates.stars_blocks_to_json bd (some bs) true =
      (nullPointerResult, none)) ∧
    (∀ outN, Crates.stars_blocks_count none outN =
      (nullPointerResult, none)) ∧
    (∀ bs, Crates.stars_blocks_count (some bs) true =
      (nullPointerResult, none)) ∧
    (∀ ser i outN, Crates.stars_blocks_get_at ser none i outN =
      (nullPointerResult, none)) ∧
    (∀ ser bs i, Crates.stars_blocks_get_at ser (some bs) i true =
      (nullPointerResult, none)) ∧
    (∀ cp bs outN, Crates.stars_compute_possible_periods cp none bs outN =
      (nullPointerResult, none)) ∧
    (∀ cp c outN, Crates.stars_compute_possible_periods cp (some c) none outN =
      (nullPointerResult, none)) ∧
    (∀ cp c bs,
      Crates.stars_compute_possible_periods cp (some c) (some bs) true =
      (nullPointerResult, none)) ∧
    (∀ fmt outN, Crates.stars_possible_periods_to_json fmt none outN =
      (nullPointerResult, none)) ∧
    (∀ fmt h, Crates.stars_possible_periods_to_json fmt (some h) true =
      (nullPointerResult, none)) ∧
    (∀ cp ea eh cf bs pp params outN,
      Crates.stars_run_scheduler cp ea eh cf none bs pp params outN =
      (nullPointerResult, none)) ∧
    (∀ cp ea eh cf c pp params outN,
      Crates.stars_run_scheduler cp ea eh cf (some c) none pp params outN =
      (nullPointerResult, none)) ∧
    (∀ cp ea eh cf c bs pp params,
      Crates.stars_run_scheduler cp ea eh cf (some c) (some bs) pp params true =
      (nullPointerResult, none)) ∧
    (∀ fmt outN, Crates.stars_schedule_to_json fmt none outN =
      (nullPointerResult, none)) ∧
    (∀ fmt s, Crates.stars_schedule_to_json fmt (some s) true =
      (nullPointerResult, none)) ∧
    (∀ outN, Crates.stars_schedule_get_stats none outN =
      (nullPointerResult, none)) ∧
    (∀ s, Crates.stars_schedule_get_stats (some s) true =
      (nullPointerResult, none)) ∧
    -- pipelines
    (∀ outN r1 r2 r3 r4 r5,
      stars_run_full_pipeline_native_checked none outN r1 r2 r3 r4 r5 =
      (nullPointerResult, [])) ∧
    (∀ inp r1 r2 r3 r4 r5,
      stars_run_full_pipeline_native_checked (some inp) true r1 r2 r3 r4 r5 =
      (nullPointerResult, [])) ∧
    (∀ outN fOk r1 r2 r3 r4 r5,
      stars_run_pipeline_from_file_native_checked none outN fOk r1 r2 r3 r4 r5 =
      (nullPointerResult, [])) ∧
    (∀ p fOk r1 r2 r3 r4 r5,
      stars_run_pipeline_from_file_native_checked (some p) true fOk
        r1 r2 r3 r4 r5 =
      (nullPointerResult, [])) ∧
    (∀ outN q1 q2 q3 q4,
      stars_run_full_pipeline_crates_checked none outN q1 q2 q3 q4 =
      (nullPointerResult, [])) ∧
    (∀ inp q1 q2 q3 q4,
      stars_run_full_pipeline_crates_checked (some inp) true q1 q2 q3 q4 =
      (nullPointerResult, [])) ∧
    (∀ outN q1 q2 q3 q4,
      stars_run_pipeline_from_file_crates_checked none outN q1 q2 q3 q4 =
      (nullPointerResult, [])) ∧
    (∀ p q1 q2 q3 q4,
      stars_run_pipeline_from_file_crates_checked (some p) true q1 q2 q3 q4 =
      (nullPointerResult, [])) := by
  refine ⟨?_, ?_, ?_, ?_, ?_, ?_, ?_, ?_, ?_, ?_, ?_, ?_, ?_, ?_, ?_, ?_,
    ?_, ?_, ?_, ?_, ?_, ?_, ?_, ?_, ?_, ?_, ?_, ?_, ?_, ?_, ?_, ?_, ?_, ?_,
    ?_, ?_, ?_, ?_, ?_, ?_, ?_, ?_, ?_, ?_, ?_, ?_, ?_, ?_, ?_, ?_, ?_, ?_,
    ?_, ?_, ?_, ?_, ?_, ?_, ?_, ?_, ?_, ?_, ?_, ?_⟩ <;> intros <;>
    first
    | rfl
    | (casesm* Option _ <;> rfl)

/-- Claim C10: for a non-null BlockCollection handle and non-null output
pointer, `stars_blocks_get_at` with an index at or past the block count
returns InvalidHandle and leaves the out JSON pointer unwritten (both
variants); with an index below the count it never takes that error
branch. -/
theorem blocks_get_at_index_bounds
    (bs : List Native.Block) (src : Json) (i : ℕ)
    (ser : Crates.CBlock → Except String Json)
    (cbs : List Crates.CBlock) (k : ℕ) :
    (bs.length ≤ i →
      Native.stars_blocks_get_at (some ⟨bs, src⟩) i false =
        (mkError .invalidHandle "Index out of bounds", none)) ∧
    (i < bs.length →
      (Native.stars_blocks_get_at (some ⟨bs, src⟩) i false).1.code ≠
        .invalidHandle) ∧
    (cbs.length ≤ k →
      Crates.stars_blocks_get_at ser (some cbs) k false =
        (mkError .invalidHandle "Index out of bounds", none)) ∧
    (k < cbs.length →
      (Crates.stars_blocks_get_at ser (some cbs) k false).1.code ≠
        .invalidHandle) := by
  refine ⟨fun h => ?_, fun h => ?_, fun h => ?_, fun h => ?_⟩
  · simp [Native.stars_blocks_get_at, h]
  · simp only [Native.stars_blocks_get_at, Bool.false_eq_true, if_false]
    rw [dif_neg (by omega)]
    simp [mkOk]
  · simp [Crates.stars_blocks_get_at, h]
  · simp only [Crates.stars_blocks_get_at, Bool.false_eq_true, if_false]
    rw [dif_neg (by omega)]
    cases hser : ser (cbs.get ⟨k, by omega⟩) <;> simp [hser, mkOk, mkError]

/-- Witness for C10 on a one-block collection, at indices 1 (out of
bounds) and 0 (in bounds), both variants. -/
theorem blocks_get_at_index_bounds_witness :
    (Native.stars_blocks_get_at
        (some ⟨[⟨"M31", 2, 3600, 10, 41⟩], Json.null⟩) 1 false =
      (mkError .invalidHandle "Index out of bounds", none)) ∧
    ((Native.stars_blocks_get_at
        (some ⟨[⟨"M31", 2, 3600, 10, 41⟩], Json.null⟩) 0 false).1.code ≠
      .invalidHandle) ∧
    (Crates.stars_blocks_get_at (fun _ => Except.ok Json.null)
        (some [⟨"b1", "B"⟩]) 1 false =
      (mkError .invalidHandle "Index out of bounds", none)) ∧
    ((Crates.stars_blocks_get_at (fun _ => Except.ok Json.null)
        (some [⟨"b1", "B"⟩]) 0 false).1.code ≠ .invalidHandle) :=
  ⟨(blocks_get_at_index_bounds [⟨"M31", 2, 3600, 10, 41⟩] Json.null 1
      (fun _ => Except.ok Json.null) [⟨"b1", "B"⟩] 1).1 (by decide),
   (blocks_get_at_index_bounds [⟨"M31", 2, 3600, 10, 41⟩] Json.null 0
      (fun _ => Except.ok Json.null) [⟨"b1", "B"⟩] 0).2.1 (by decide),
   (blocks_get_at_index_bounds [⟨"M31", 2, 3600, 10, 41⟩] Json.null 1
      (fun _ => Except.ok Json.null) [⟨"b1", "B"⟩] 1).2.2.1 (by decide),
   (blocks_get_at_index_bounds [⟨"M31", 2, 3600, 10, 41⟩] Json.null 0
      (fun _ => Except.ok Json.null) [⟨"b1", "B"⟩] 0).2.2.2 (by decide)⟩

/-- Claim C7: every failure result is built by `make_error` (native) /
`make_result` (crates), and for the non-empty messages these are always
called with, the advisory message carried in the returned result equals
the string `stars_get_last_error` subsequently reports on the same
thread; `stars_clear_error` resets the slot so `stars_get_last_error`
returns null. -/
theorem error_message_mirrored_in_last_error_slot
    (st : ErrorChannel.ErrState) (code : StarsErrorCode) (msg : String)
    (hmsg : msg ≠ "") :
    ((ErrorChannel.native_make_error st code msg).2.error_message = some msg ∧
      ErrorChannel.stars_get_last_error
        (ErrorChannel.native_make_error st code msg).1 = some msg) ∧
    ((ErrorChannel.crates_make_result st code msg).2.error_message = some msg ∧
      ErrorChannel.stars_get_last_error
        (ErrorChannel.crates_make_result st code msg).1 = some msg) ∧
    ErrorChannel.stars_get_last_error (ErrorChannel.stars_clear_error st) =
      none := by
  refine ⟨⟨rfl, ?_⟩, ⟨?_, ?_⟩, rfl⟩ <;>
    simp [ErrorChannel.native_make_error, ErrorChannel.crates_make_result,
      ErrorChannel.stars_get_last_error, hmsg]

/-- Witness for C7 with the message every null check uses. -/
theorem error_message_mirrored_in_last_error_slot_witness :
    ((ErrorChannel.native_make_error "" .nullPointer
        "Null pointer argument").2.error_message = some "Null pointer argument" ∧
      ErrorChannel.stars_get_last_error
        (ErrorChannel.native_make_error "" .nullPointer
          "Null pointer argument").1 = some "Null pointer argument") ∧
    ((ErrorChannel.crates_make_result "" .nullPointer
        "Null pointer argument").2.error_message = some "Null pointer argument" ∧
      ErrorChannel.stars_get_last_error
        (ErrorChannel.crates_make_result "" .nullPointer
          "Null pointer argument").1 = some "Null pointer argument") ∧
    ErrorChannel.stars_get_last_error (ErrorChannel.stars_clear_error "") =
      none :=
  error_message_mirrored_in_last_error_slot "" .nullPointer
    "Null pointer argument" (by decide)

/-- Claim C8: for every Context whose execution period satisfies
`begin ≤ end`, the `duration_days` field exported by
`stars_context_get_execution_period` equals `(end - begin)` converted to
days — `(end - begin) / 86400` with the period in seconds — exactly over
`ℚ` (both variants; the crates variant computes it as total hours over
24). -/
theorem execution_period_duration_days_correct
    (fmt : ℤ → String) (ctx : Native.Context) (cctx : Crates.Context)
    (h1 : ctx.periodBegin ≤ ctx.periodEnd)
    (h2 : cctx.periodBegin ≤ cctx.periodEnd) :
    (∃ out, (Native.stars_context_get_execution_period fmt (some ctx)
        false).2 = some out ∧
      out.getNumD "duration_days" 0 =
        ((ctx.periodEnd - ctx.periodBegin : ℤ) : ℚ) / 86400) ∧
    (∃ out, (Crates.stars_context_get_execution_period fmt (some cctx)
        false).2 = some out ∧
      out.getNumD "duration_days" 0 =
        ((cctx.periodEnd - cctx.periodBegin : ℤ) : ℚ) / 86400) := by
  constructor
  · exact ⟨_, rfl, rfl⟩
  · refine ⟨_, rfl, ?_⟩
    show (((cctx.periodEnd - cctx.periodBegin : ℤ) : ℚ) / 3600) / 24 =
      ((cctx.periodEnd - cctx.periodBegin : ℤ) : ℚ) / 86400
    rw [div_div]
    norm_num

/-- Witness for C8: a one-day execution period exports
`duration_days = 1` in both variants. -/
theorem execution_period_duration_days_correct_witness :
    (∃ out, (Native.stars_context_get_execution_period (fun _ => "t")
        (some ⟨0, 0, 0, 0, 86400, Json.null⟩) false).2 = some out ∧
      out.getNumD "duration_days" 0 = ((86400 - 0 : ℤ) : ℚ) / 86400) ∧
    (∃ out, (Crates.stars_context_get_execution_period (fun _ => "t")
        (some ⟨none, 0, 86400, ""⟩) false).2 = some out ∧
      out.getNumD "duration_days" 0 = ((86400 - 0 : ℤ) : ℚ) / 86400) :=
  execution_period_duration_days_correct (fun _ => "t")
    ⟨0, 0, 0, 0, 86400, Json.null⟩ ⟨none, 0, 86400, ""⟩
    (by decide) (by decide)

/-- Claim C6: with non-null arguments, `stars_compute_possible_periods`
returns InvalidHandle when the Context carries no resolved instrument
(the crates variant; a native-variant Context always carries the
instrument built by `stars_context_create`), and PreschedulerFailed when
the external `prescheduler::ComputePeriods` collaborator throws; in both
failure cases no PossiblePeriods handle is written. -/
theorem compute_possible_periods_error_paths
    (cp : Crates.Instrument → List Crates.CBlock → ℤ × ℤ →
      Except String Crates.PeriodsMap)
    (ctx : Crates.Context) (bs : List Crates.CBlock)
    (pres : Except String Unit)
    (nctx : Native.Context) (nbs : Native.BlocksCollection) :
    (ctx.instrument = none →
      Crates.stars_compute_possible_periods cp (some ctx) (some bs) false =
        (mkError .invalidHandle "Context has no instrument configured", none)) ∧
    (∀ instr e, ctx.instrument = some instr →
      cp instr bs (ctx.periodBegin, ctx.periodEnd) = .error e →
      Crates.stars_compute_possible_periods cp (some ctx) (some bs) false =
        (mkError .preschedulerFailed ("Prescheduler failed: " ++ e), none)) ∧
    (∀ e, pres = .error e →
      Native.stars_compute_possible_periods pres (some nctx) (some nbs) false =
        (mkError .preschedulerFailed e, none)) := by
  refine ⟨fun h => ?_, fun instr e hi hcp => ?_, fun e hp => ?_⟩
  · simp [Crates.stars_compute_possible_periods, h]
  · simp [Crates.stars_compute_possible_periods, hi, hcp]
  · simp [Native.stars_compute_possible_periods, hp]

/-- Witness for C6: a context without instrument, a context whose
prescheduler call throws, and a native prescheduler throw. -/
theorem compute_possible_periods_error_paths_witness :
    (Crates.stars_compute_possible_periods (fun _ _ _ => Except.error "boom")
        (some ⟨none, 0, 1, ""⟩) (some []) false =
      (mkError .invalidHandle "Context has no instrument configured", none)) ∧
    (Crates.stars_compute_possible_periods (fun _ _ _ => Except.error "boom")
        (some ⟨some ⟨0⟩, 0, 1, ""⟩) (some []) false =
      (mkError .preschedulerFailed ("Prescheduler failed: " ++ "boom"), none)) ∧
    (Native.stars_compute_possible_periods (Except.error "bang")
        (some ⟨0, 0, 0, 0, 1, Json.null⟩) (some ⟨[], Json.null⟩) false =
      (mkError .preschedulerFailed "bang", none)) :=
  ⟨(compute_possible_periods_error_paths (fun _ _ _ => Except.error "boom")
      ⟨none, 0, 1, ""⟩ [] (Except.error "bang") ⟨0, 0, 0, 0, 1, Json.null⟩
      ⟨[], Json.null⟩).1 rfl,
   (compute_possible_periods_error_paths (fun _ _ _ => Except.error "boom")
      ⟨some ⟨0⟩, 0, 1, ""⟩ [] (Except.error "bang") ⟨0, 0, 0, 0, 1, Json.null⟩
      ⟨[], Json.null⟩).2.1 ⟨0⟩ "boom" rfl rfl,
   (compute_possible_periods_error_paths (fun _ _ _ => Except.error "boom")
      ⟨none, 0, 1, ""⟩ [] (Except.error "bang") ⟨0, 0, 0, 0, 1, Json.null⟩
      ⟨[], Json.null⟩).2.2 "bang" rfl⟩

/-- Counterexample to C5 as stated: in the crates variant,
`stars_context_create` on the well-formed config `{}` — which contains no
`instrument` field — returns Ok (not InvalidJson/Deserialization) and
writes a Context handle (with no instrument) to the out-parameter. -/
theorem context_create_crates_accepts_missing_instrument :
    Crates.stars_context_create (fun _ => Except.error "unused")
      (fun _ => Except.error "unused")
      (some (some (Json.obj []))) false =
    (mkOk, some ⟨none, 0, 0, ""⟩) := rfl

/-- Claim C5 as amended: for a well-formed config with no `instrument`
field, the native `stars_context_create` returns InvalidJson and writes
no handle; the crates `stars_context_create` does not fail for that
reason — any Context handle it writes simply carries no instrument — and
`stars_run_scheduler` (hence the pipeline) then fails with InvalidHandle,
writing no Schedule handle. -/
theorem missing_instrument_behavior
    (pt pt2 : String → Except String ℤ)
    (il : Json → Except String Crates.Instrument)
    (j : Json) (h : j.containsKey "instrument" = false)
    (cctx : Crates.Context) (hctx : cctx.instrument = none)
    (cp : Except String Crates.PeriodsMap)
    (cea ceh : List Crates.CBlock →
      Except String (Option (List Native.SchedUnit) × List Crates.CBlock))
    (cf : List Native.SchedUnit → ℚ) (bs : List Crates.CBlock)
    (pp : Option Crates.PossiblePeriods) (params : Native.SchedulingParams) :
    (Native.stars_context_create pt (some (some j)) false =
      (mkError .invalidJson "Missing \x27instrument\x27 in config", none)) ∧
    (∀ h2, (Crates.stars_context_create il pt2 (some (some j)) false).2 =
      some h2 → h2.instrument = none) ∧
    (Crates.stars_run_scheduler cp cea ceh cf (some cctx) (some bs) pp params
      false =
      (mkError .invalidHandle "Context has no instrument configured", none)) := by
  refine ⟨?_, fun h2 hh2 => ?_, ?_⟩
  · simp [Native.stars_context_create, h]
  · simp only [Crates.stars_context_create, h, Bool.false_eq_true, if_false] at hh2
    split at hh2
    · simp at hh2
    · split at hh2
      · simp at hh2
      · simp only [mkOk] at hh2
        injection hh2 with hh2
        rw [← hh2]
  · simp [Crates.stars_run_scheduler, hctx]

/-- Witness for the amended C5 at the concrete config `{}` and a concrete
instrument-less Context. -/
theorem missing_instrument_behavior_witness :
    (Native.stars_context_create (fun _ => Except.error "u")
        (some (some (Json.obj []))) false =
      (mkError .invalidJson "Missing \x27instrument\x27 in config", none)) ∧
    (Crates.stars_run_scheduler (Except.ok []) (fun _ => Except.error "u")
        (fun _ => Except.error "u") (fun _ => 0) (some ⟨none, 0, 0, ""⟩)
        (some []) none Native.stars_scheduling_params_default false =
      (mkError .invalidHandle "Context has no instrument configured", none)) :=
  ⟨(missing_instrument_behavior (fun _ => Except.error "u")
      (fun _ => Except.error "u") (fun _ => Except.error "u") (Json.obj []) rfl
      ⟨none, 0, 0, ""⟩ rfl (Except.ok []) (fun _ => Except.error "u")
      (fun _ => Except.error "u") (fun _ => 0) [] none
      Native.stars_scheduling_params_default).1,
   (missing_instrument_behavior (fun _ => Except.error "u")
      (fun _ => Except.error "u") (fun _ => Except.error "u") (Json.obj []) rfl
      ⟨none, 0, 0, ""⟩ rfl (Except.ok []) (fun _ => Except.error "u")
      (fun _ => Except.error "u") (fun _ => 0) [] none
      Native.stars_scheduling_params_default).2.2⟩

/-- Modelled from the spec: a scheduling engine returns a schedule (an
ordered sequence of units) plus the complementary set of unscheduled
blocks, so on success the two partition the blocks it was given
(native block type). -/
def EngineValidN (e : List Native.Block → Except String Native.EngineOutcome) :
    Prop :=
  ∀ bs r, e bs = .ok r →
    ∃ us, r.1 = some us ∧ us.length + r.2.length = bs.length

/-- Modelled from the spec: the engine partition property, crates block
type. -/
def EngineValidC (e : List Crates.CBlock →
    Except String (Option (List Native.SchedUnit) × List Crates.CBlock)) :
    Prop :=
  ∀ bs r, e bs = .ok r →
    ∃ us, r.1 = some us ∧ us.length + r.2.length = bs.length

/-- Shape of a successful native `stars_run_scheduler` call: the handle
stores the outcome of the selected engine and the block count of the
collection. -/
theorem run_scheduler_native_success
    (pres : Except String Unit)
    (ea eh : List Native.Block → Except String Native.EngineOutcome)
    (ctx : Native.Context) (coll : Native.BlocksCollection)
    (pp : Option Bool) (params : Native.SchedulingParams)
    (sched : Native.Schedule)
    (h : (Native.stars_run_scheduler pres ea eh (some ctx) (some coll) pp
      params false).2 = some sched) :
    ∃ r, (ea coll.blocks = Except.ok r ∨ eh coll.blocks = Except.ok r) ∧
      sched.schedule = r.1 ∧ sched.unscheduled = r.2 ∧
      sched.total_blocks = coll.blocks.length := by
  simp only [Native.stars_run_scheduler, Bool.false_eq_true, if_false] at h
  split at h
  · simp at h
  · split at h
    · simp at h
    · rename_i heq u up hu
      simp only [mkOk] at h
      injection h with h
      refine ⟨(u, up), ?_, by rw [← h], by rw [← h], by rw [← h]⟩
      by_cases halg : params.algorithm = 1
      · right; rw [halg] at hu; simpa using hu
      · left; simp [halg] at hu; exact hu

/-- Shape of a successful crates `stars_run_scheduler` call. -/
theorem run_scheduler_crates_success
    (cp : Except String Crates.PeriodsMap)
    (cea ceh : List Crates.CBlock →
      Except String (Option (List Native.SchedUnit) × List Crates.CBlock))
    (cf : List Native.SchedUnit → ℚ)
    (cctx : Crates.Context) (cbs : List Crates.CBlock)
    (cpp : Option Crates.PossiblePeriods) (params : Native.SchedulingParams)
    (csched : Crates.Schedule)
    (h : (Crates.stars_run_scheduler cp cea ceh cf (some cctx) (some cbs) cpp
      params false).2 = some csched) :
    ∃ r, (cea cbs = Except.ok r ∨ ceh cbs = Except.ok r) ∧
      csched.schedule = r.1 ∧ csched.unscheduled = r.2 := by
  simp only [Crates.stars_run_scheduler, Bool.false_eq_true, if_false] at h
  split at h
  · simp at h
  · split at h
    · simp at h
    · rename_i engine hengine
      split at h
      · simp at h
      · split at h
        · simp at h
        · rename_i heq u up hu
          simp only [mkOk] at h
          injection h with h
          refine ⟨(u, up), ?_, by rw [← h], by rw [← h]⟩
          by_cases h0 : params.algorithm = 0
          · left
            rw [h0] at hengine
            simp at hengine
            rw [hengine]; exact hu
          · right
            by_cases h1 : params.algorithm = 1
            · rw [h1] at hengine
              simp [h0] at hengine
              rw [hengine]; exact hu
            · simp [h0, h1] at hengine

/-- Claim C2: for every Schedule handle written by `stars_run_scheduler`
on a BlockCollection (either variant, engines satisfying the spec's
partition contract), the `scheduled_count` plus `unscheduled_count`
reported by `stars_schedule_get_stats` — and equally in the JSON produced
by `stars_schedule_to_json` — equals the number of blocks in that
BlockCollection. -/
theorem schedule_counts_sum_to_total_blocks
    (pres : Except String Unit)
    (ea eh : List Native.Block → Except String Native.EngineOutcome)
    (hea : EngineValidN ea) (heh : EngineValidN eh)
    (ctx : Native.Context) (coll : Native.BlocksCollection)
    (pp : Option Bool) (params : Native.SchedulingParams)
    (sched : Native.Schedule) (fmt : ℤ → String)
    (hrun : (Native.stars_run_scheduler pres ea eh (some ctx) (some coll) pp
      params false).2 = some sched)
    (cp : Except String Crates.PeriodsMap)
    (cea ceh : List Crates.CBlock →
      Except String (Option (List Native.SchedUnit) × List Crates.CBlock))
    (hcea : EngineValidC cea) (hceh : EngineValidC ceh)
    (cf : List Native.SchedUnit → ℚ)
    (cctx : Crates.Context) (cbs : List Crates.CBlock)
    (cpp : Option Crates.PossiblePeriods) (csched : Crates.Schedule)
    (hcrun : (Crates.stars_run_scheduler cp cea ceh cf (some cctx) (some cbs)
      cpp params false).2 = some csched) :
    (∃ out, (Native.stars_schedule_get_stats (some sched) false).2 = some out ∧
      out.getNumD "scheduled_count" 0 + out.getNumD "unscheduled_count" 0 =
        (coll.blocks.length : ℚ)) ∧
    (∃ out, (Native.stars_schedule_to_json fmt (some sched) false).2 =
        some out ∧
      out.getNumD "scheduled_count" 0 + out.getNumD "unscheduled_count" 0 =
        (coll.blocks.length : ℚ)) ∧
    (∃ out, (Crates.stars_schedule_get_stats (some csched) false).2 =
        some out ∧
      out.getNumD "scheduled_count" 0 + out.getNumD "unscheduled_count" 0 =
        (cbs.length : ℚ)) ∧
    (∃ out, (Crates.stars_schedule_to_json fmt (some csched) false).2 =
        some out ∧
      out.getNumD "scheduled_count" 0 + out.getNumD "unscheduled_count" 0 =
        (cbs.length : ℚ)) := by
  obtain ⟨r, hosel, hs, hu, ht⟩ :=
    run_scheduler_native_success pres ea eh ctx coll pp params sched hrun
  obtain ⟨us, hr1, hlen⟩ : ∃ us, r.1 = some us ∧
      us.length + r.2.length = coll.blocks.length := by
    rcases hosel with he | he
    · exact hea _ _ he
    · exact heh _ _ he
  obtain ⟨cr, hcsel, hcs, hcu⟩ :=
    run_scheduler_crates_success cp cea ceh cf cctx cbs cpp params csched hcrun
  obtain ⟨cus, hcr1, hclen⟩ : ∃ cus, cr.1 = some cus ∧
      cus.length + cr.2.length = cbs.length := by
    rcases hcsel with he | he
    · exact hcea _ _ he
    · exact hceh _ _ he
  have hle : r.2.length ≤ coll.blocks.length := by omega
  obtain ⟨ss, su, st, sf⟩ := sched
  replace hs : ss = r.1 := hs
  replace hu : su = r.2 := hu
  replace ht : st = coll.blocks.length := ht
  subst hs; subst hu; subst ht
  obtain ⟨css, csb, csu, csf⟩ := csched
  replace hcs : css = cr.1 := hcs
  replace hcu : csu = cr.2 := hcu
  subst hcs; subst hcu
  refine ⟨⟨_, rfl, ?_⟩, ⟨_, rfl, ?_⟩, ⟨_, rfl, ?_⟩, ⟨_, rfl, ?_⟩⟩
  · simp [Json.getNumD, Json.lookupField]
    exact_mod_cast Nat.sub_add_cancel hle
  · simp [Json.getNumD, Json.lookupField, hr1]
    exact_mod_cast hlen
  · simp [Json.getNumD, Json.lookupField, hcr1]
    exact_mod_cast hclen
  · simp [Json.getNumD, Json.lookupField, hcr1]
    exact_mod_cast hclen

/-- Witness for C2: a one-block collection scheduled by an engine that
plans nothing — both exports account for the single block. -/
theorem schedule_counts_sum_to_total_blocks_witness :
    (∃ out, (Native.stars_schedule_get_stats
        (some ⟨some [], [⟨"M31", 2, 3600, 10, 41⟩], 1, 0⟩) false).2 =
        some out ∧
      out.getNumD "scheduled_count" 0 + out.getNumD "unscheduled_count" 0 =
        (1 : ℚ)) ∧
    (∃ out, (Native.stars_schedule_to_json (fun _ => "t")
        (some ⟨some [], [⟨"M31", 2, 3600, 10, 41⟩], 1, 0⟩) false).2 =
        some out ∧
      out.getNumD "scheduled_count" 0 + out.getNumD "unscheduled_count" 0 =
        (1 : ℚ)) ∧
    (∃ out, (Crates.stars_schedule_get_stats
        (some ⟨some [], [⟨"b1", "B"⟩], [⟨"b1", "B"⟩], 0⟩) false).2 =
        some out ∧
      out.getNumD "scheduled_count" 0 + out.getNumD "unscheduled_count" 0 =
        (1 : ℚ)) ∧
    (∃ out, (Crates.stars_schedule_to_json (fun _ => "t")
        (some ⟨some [], [⟨"b1", "B"⟩], [⟨"b1", "B"⟩], 0⟩) false).2 =
        some out ∧
      out.getNumD "scheduled_count" 0 + out.getNumD "unscheduled_count" 0 =
        (1 : ℚ)) :=
  schedule_counts_sum_to_total_blocks (Except.ok ())
    (fun bs => Except.ok (some [], bs)) (fun bs => Except.ok (some [], bs))
    (fun bs r h => by
      injection h with h
      exact ⟨[], by rw [← h], by rw [← h]; simp⟩)
    (fun bs r h => by
      injection h with h
      exact ⟨[], by rw [← h], by rw [← h]; simp⟩)
    ⟨0, 0, 0, 0, 86400, Json.null⟩ ⟨[⟨"M31", 2, 3600, 10, 41⟩], Json.null⟩
    none Native.stars_scheduling_params_default
    ⟨some [], [⟨"M31", 2, 3600, 10, 41⟩], 1, 0⟩ (fun _ => "t")
    (by simp [Native.stars_run_scheduler])
    (Except.ok [])
    (fun bs => Except.ok (some [], bs)) (fun bs => Except.ok (some [], bs))
    (fun bs r h => by
      injection h with h
      exact ⟨[], by rw [← h], by rw [← h]; simp⟩)
    (fun bs r h => by
      injection h with h
      exact ⟨[], by rw [← h], by rw [← h]; simp⟩)
    (fun _ => 0) ⟨some ⟨0⟩, 0, 86400, ""⟩ [⟨"b1", "B"⟩] none
    ⟨some [], [⟨"b1", "B"⟩], [⟨"b1", "B"⟩], 0⟩ rfl

/-- The element loop of `stars_blocks_load_json` succeeds and concatenates
the per-element blocks when every element decodes without throwing. -/
theorem loadElemsLoop_ok (elems : List Json) (bss : List (List Native.Block))
    (h : elems.map Native.buildBlocksOfElem = bss.map Except.ok)
    (acc : List Native.Block) :
    Native.loadElemsLoop acc elems = Except.ok (acc ++ bss.flatten) := by
  induction elems generalizing bss acc with
  | nil =>
    cases bss with
    | nil => simp [Native.loadElemsLoop]
    | cons b bs => simp at h
  | cons e es ih =>
    cases bss with
    | nil => simp at h
    | cons b bs =>
      simp only [List.map_cons, List.cons.injEq] at h
      obtain ⟨h1, h2⟩ := h
      simp [Native.loadElemsLoop, h1, ih bs h2, List.append_assoc]

/-- The item loop never throws, and contributes nothing, on items whose
keys carry no recognized discriminator. -/
theorem buildItemsLoop_skips (items : List (String × Json))
    (acc : List Native.Block)
    (h : ∀ kv ∈ items, Native.keyHasObservationTask kv.1 = false) :
    Native.buildItemsLoop acc items = Except.ok acc := by
  induction items generalizing acc with
  | nil => rfl
  | cons kv rest ih =>
    have hk := h kv (by simp)
    simp only [Native.buildItemsLoop, Native.buildBlockOfItem, hk,
      Bool.false_eq_true, if_false]
    exact ih acc (fun kv2 hm => h kv2 (by simp [hm]))

/-- The crates element loop succeeds when the deserializer throws on no
element, keeping exactly the non-null blocks in order. -/
theorem loadCBlocksLoop_ok (deser : Json → Except String (Option Crates.CBlock))
    (elems : List Json) (rs : List (Option Crates.CBlock))
    (h : elems.map deser = rs.map Except.ok) (acc : List Crates.CBlock) :
    Crates.loadCBlocksLoop deser acc elems =
      Except.ok (acc ++ rs.filterMap id) := by
  induction elems generalizing rs acc with
  | nil =>
    cases rs with
    | nil => simp [Crates.loadCBlocksLoop]
    | cons r rest => simp at h
  | cons e es ih =>
    cases rs with
    | nil => simp at h
    | cons r rest =>
      simp only [List.map_cons, List.cons.injEq] at h
      obtain ⟨h1, h2⟩ := h
      cases r with
      | none => simp [Crates.loadCBlocksLoop, h1, ih rest h2]
      | some b =>
        simp [Crates.loadCBlocksLoop, h1, ih rest h2, List.append_assoc]

/-- Claim C9: `stars_blocks_load_json` on an array whose elements all
decode without throwing succeeds and returns exactly the blocks built
from the recognized discriminators, in order; an element carrying only
unrecognized type discriminators contributes no blocks and causes no
failure — decoding is not aborted by an unknown discriminator.  The
native loader's dispatch is in-source; the crates loader delegates to
the external type-registry deserializer, spec-modelled with the
documented lenient-skip policy (unrecognized discriminator = null block,
skipped by the `if (block)` guard). -/
theorem load_blocks_skips_unrecognized_discriminators
    (elems : List Json) (bss : List (List Native.Block))
    (h : elems.map Native.buildBlocksOfElem = bss.map Except.ok)
    (deser : Json → Except String (Option Crates.CBlock))
    (celems : List Json) (rs : List (Option Crates.CBlock))
    (hc : celems.map deser = rs.map Except.ok) :
    (Native.stars_blocks_load_json (some (some (Json.arr elems))) false =
      (mkOk, some ⟨bss.flatten, Json.arr elems⟩)) ∧
    (∀ e ∈ elems,
      (∀ kv ∈ e.items, Native.keyHasObservationTask kv.1 = false) →
      Native.buildBlocksOfElem e = Except.ok []) ∧
    (Crates.stars_blocks_load_json deser (some (some (Json.arr celems)))
      false = (mkOk, some (rs.filterMap id))) := by
  refine ⟨?_, ?_, ?_⟩
  · simp only [Native.stars_blocks_load_json, Json.containsKey, Json.isArr,
      Json.elems, Bool.false_eq_true, if_false]
    simp [loadElemsLoop_ok elems bss h []]
  · intro e _ hnone
    exact buildItemsLoop_skips e.items [] hnone
  · simp only [Crates.stars_blocks_load_json, Json.isArr, Json.iterVals]
    simp [loadCBlocksLoop_ok deser celems rs hc []]

/-- The concrete element list for the C9 witness: one recognized
ObservationTask element, one element with an unknown discriminator, and
one non-object element. -/
def c9elems : List Json :=
  [Json.obj [("ObservationTask",
      Json.obj [("name", Json.str "A"), ("priority", Json.num 5)])],
   Json.obj [("UnknownTask", Json.obj [("name", Json.str "B")])],
   Json.str "junk"]

/-- The lenient deserializer used by the C9 witness: elements tagged
`ObservationTask` build a block, anything else is a null block. -/
def c9deser (j : Json) : Except String (Option Crates.CBlock) :=
  if j.containsKey "ObservationTask" then Except.ok (some ⟨"id1", "A"⟩)
  else Except.ok none

/-- Witness for C9: loading the mixed list succeeds with exactly the one
recognized block in both variants, and both unrecognized elements
contribute nothing. -/
theorem load_blocks_skips_unrecognized_discriminators_witness :
    (Native.stars_blocks_load_json (some (some (Json.arr c9elems))) false =
      (mkOk, some ⟨[⟨"A", 5, 0, 0, 0⟩], Json.arr c9elems⟩)) ∧
    (∀ e ∈ c9elems,
      (∀ kv ∈ e.items, Native.keyHasObservationTask kv.1 = false) →
      Native.buildBlocksOfElem e = Except.ok []) ∧
    (Crates.stars_blocks_load_json c9deser (some (some (Json.arr c9elems)))
      false = (mkOk, some [⟨"id1", "A"⟩])) :=
  load_blocks_skips_unrecognized_discriminators c9elems
    [[⟨"A", 5, 0, 0, 0⟩], [], []] (by rfl)
    c9deser c9elems [some ⟨"id1", "A"⟩, none, none] (by rfl)

/-- The C4 failing input: a valid one-block collection
`[{"ObservationTask": {"name": "M31", "priority": 2}}]`. -/
def c4input : Json :=
  Json.arr [Json.obj [("ObservationTask",
    Json.obj [("name", Json.str "M31"), ("priority", Json.num 2)])]]

/-- The single block decoded from `c4input`. -/
def c4blocks : List Native.Block := [⟨"M31", 2, 0, 0, 0⟩]

/-- The export of that collection:
`[{"name": "M31", "priority": 2.0}]` — note it carries no
`ObservationTask` type discriminator. -/
def c4export : Json :=
  Json.arr [Json.obj [("name", Json.str "M31"), ("priority", Json.num 2)]]

/-- Claim C4 fails on the code (code bug): loading `c4input` yields one
block; exporting it with `stars_blocks_to_json` emits elements without
any type discriminator; re-loading that export therefore succeeds but
yields an *empty* collection — the round-trip loses every block instead
of preserving the count and the (name, priority) pairs. -/
theorem blocks_roundtrip_loses_blocks :
    (Native.stars_blocks_load_json (some (some c4input)) false =
      (mkOk, some ⟨c4blocks, c4input⟩)) ∧
    (Native.stars_blocks_to_json (some ⟨c4blocks, c4input⟩) false =
      (mkOk, some c4export)) ∧
    (Native.stars_blocks_load_json (some (some c4export)) false =
      (mkOk, some ⟨[], c4export⟩)) ∧
    c4blocks.length = 1 ∧ ([] : List Native.Block).length = 0 :=
  ⟨by rfl, by rfl, by rfl, rfl, rfl⟩
